import Mathlib

/-!
Verification of the Fluvius Electricity Belgium integration
(`custom_components/fluvius_electricity_belgium`).

The Python source is shallowly embedded:

* Float arithmetic of the sensors is modelled over `ℚ` (all claim-relevant
  computations are tie-free, so the binary-float/decimal distinction and the
  half-even tie rule of Python's `round` do not influence any result below);
  `round(x, 3)` is modelled by `round3`.
* A Python value on which `float(v)` succeeds is `PVal.conv q` (carrying the
  resulting number); a value on which `float(v)` raises is `PVal.nonconv tag`.
* A reading entry of a day-bucket's `"v"` list is either not a dict
  (`Reading.notDict`, skipped by the `isinstance` guard) or a dict with an
  optional `"dc"` field and an optional `"v"` field (`none` models both an
  absent key and an explicit `None` value, which `dict.get` conflates for
  `"v"`; a `"dc"` present with a non-1/non-2 value is modelled by an `Int`
  different from 1 and 2, which compares the same way).
* Exceptions escaping the summation loop are modelled by `Option`: `none` is
  the raised exception, caught by the sensors' `except` clause.
-/

/-!
### Executable string primitives

Python's `startswith`, `in` (substring), `strip`, `rstrip("/")` and `[:n]`
on `str`, as structural recursions over the character list of a `String`
(so that concrete instances evaluate by `decide`). -/

/-- `pat` is a prefix of the character list (Python `s.startswith(pat)`). -/
def charsStartWith : List Char → List Char → Bool
  | _, [] => true
  | [], _ :: _ => false
  | c :: cs, p :: ps => c = p && charsStartWith cs ps

/-- Python `s.startswith(pat)`. -/
def strStartsWith (s pat : String) : Bool := charsStartWith s.data pat.data

/-- `pat` occurs as a contiguous run in the character list (Python
`pat in s`). -/
def charsContain (pat : List Char) : List Char → Bool
  | [] => charsStartWith [] pat
  | c :: rest => charsStartWith (c :: rest) pat || charsContain pat rest

/-- Python `pat in s`. -/
def strContains (s pat : String) : Bool := charsContain pat.data s.data

/-- A character of Python's default `str.strip` whitespace set (the ASCII
part suffices for the configuration strings modelled here). -/
def isPySpace (c : Char) : Bool := c = ' ' || c = '\t' || c = '\n' || c = '\r'

/-- Python `s.strip()`. -/
def pyStrip (s : String) : String :=
  ⟨((s.data.dropWhile isPySpace).reverse.dropWhile isPySpace).reverse⟩

/-- Python `s[:n]`. -/
def strTake (s : String) (n : Nat) : String := ⟨s.data.take n⟩

/-- A Python value in a reading's `"v"` slot: `conv q` is any value on which
`float(v)` returns the number `q`; `nonconv tag` is any value on which
`float(v)` raises (e.g. a non-numeric string, a list or a dict). -/
inductive PVal where
  | conv (q : ℚ)
  | nonconv (tag : String)
deriving DecidableEq, Repr

/-- One element of a day-bucket's `"v"` list, as the sensors in `sensor.py`
inspect it: `notDict` fails the `isinstance(reading, dict)` guard; `mk dc v`
is a dict whose `"dc"` key is absent (`dc = none`) or holds an integer-like
value, and whose `"v"` key is absent or `None` (`v = none`) or holds a
Python value `v`. -/
inductive Reading where
  | notDict
  | mk (dc : Option Int) (v : Option PVal)
deriving DecidableEq, Repr

/-- A day-bucket of the stored payload: `v = none` models a dict without a
`"v"` key, for which `day.get("v", [])` yields the empty list. -/
structure Day where
  v : Option (List Reading)
deriving DecidableEq, Repr

/-- Python's `round(q, 3)` over exact rationals (round to the nearest
multiple of 1/1000; the tie rule is irrelevant to every claim below). -/
def round3 (q : ℚ) : ℚ := (round (q * 1000) : ℤ) / 1000

/-- The inner loop of `FluviusConsumptionSensor.native_value` over one
day-bucket's reading list: skip non-dicts, skip absent/None `"v"`, and when
`reading.get("dc", 1) == 1` add `float(val)`; `none` models an exception
raised by `float`. -/
def consDay (acc : ℚ) : List Reading → Option ℚ
  | [] => some acc
  | Reading.notDict :: rest => consDay acc rest
  | Reading.mk _ none :: rest => consDay acc rest
  | Reading.mk dc (some pv) :: rest =>
    if dc.getD 1 = 1 then
      match pv with
      | PVal.conv q => consDay (acc + q) rest
      | PVal.nonconv _ => none
    else consDay acc rest

/-- The outer loop of `FluviusConsumptionSensor.native_value` over the
day-buckets. -/
def consDays (acc : ℚ) : List Day → Option ℚ
  | [] => some acc
  | d :: rest =>
    match consDay acc (d.v.getD []) with
    | none => none
    | some acc' => consDays acc' rest

/-- The inner loop of `FluviusInjectionSensor.native_value`:
`reading.get("dc", 0) == 2` selects the readings that are summed. -/
def injDay (acc : ℚ) : List Reading → Option ℚ
  | [] => some acc
  | Reading.notDict :: rest => injDay acc rest
  | Reading.mk _ none :: rest => injDay acc rest
  | Reading.mk dc (some pv) :: rest =>
    if dc.getD 0 = 2 then
      match pv with
      | PVal.conv q => injDay (acc + q) rest
      | PVal.nonconv _ => none
    else injDay acc rest

/-- The outer loop of `FluviusInjectionSensor.native_value`. -/
def injDays (acc : ℚ) : List Day → Option ℚ
  | [] => some acc
  | d :: rest =>
    match injDay acc (d.v.getD []) with
    | none => none
    | some acc' => injDays acc' rest

/-- The inner loop of `FluviusNetSensor.native_value`: both accumulators are
threaded; `dc = reading.get("dc", 0)`, `dc == 1` feeds the consumption
accumulator and `dc == 2` the injection accumulator. -/
def netDay (cons inj : ℚ) : List Reading → Option (ℚ × ℚ)
  | [] => some (cons, inj)
  | Reading.notDict :: rest => netDay cons inj rest
  | Reading.mk _ none :: rest => netDay cons inj rest
  | Reading.mk dc (some pv) :: rest =>
    if dc.getD 0 = 1 then
      match pv with
      | PVal.conv q => netDay (cons + q) inj rest
      | PVal.nonconv _ => none
    else if dc.getD 0 = 2 then
      match pv with
      | PVal.conv q => netDay cons (inj + q) rest
      | PVal.nonconv _ => none
    else netDay cons inj rest

/-- The outer loop of `FluviusNetSensor.native_value`. -/
def netDays (cons inj : ℚ) : List Day → Option (ℚ × ℚ)
  | [] => some (cons, inj)
  | d :: rest =>
    match netDay cons inj (d.v.getD []) with
    | none => none
    | some (c', i') => netDays c' i' rest

/-- `FluviusConsumptionSensor.native_value`: the argument is
`coordinator.data` (`none` = never stored); `data or []` followed by
`if not data: return None` maps both `none` and the empty list to `none`;
otherwise the summation runs and an exception yields `none`, a normal exit
yields `round(total, 3)`. -/
def consumptionValue (data : Option (List Day)) : Option ℚ :=
  if (data.getD []).isEmpty then none
  else (consDays 0 (data.getD [])).map round3

/-- `FluviusInjectionSensor.native_value`. -/
def injectionValue (data : Option (List Day)) : Option ℚ :=
  if (data.getD []).isEmpty then none
  else (injDays 0 (data.getD [])).map round3

/-- `FluviusNetSensor.native_value`: `net = cons - inj`, rounded once. -/
def netValue (data : Option (List Day)) : Option ℚ :=
  if (data.getD []).isEmpty then none
  else (netDays 0 0 (data.getD [])).map (fun p => round3 (p.1 - p.2))

/-!
## Coordinator model (`__init__.py`, `FluviusCoordinator`)

A cycle of `_async_update_data` is modelled as a function of the coordinator
state (the in-memory token cache and the last payload), the configured
credentials, the outcome of the blocking token fetch run in the executor
(`_fetch_bearer_token_sync`), and the HTTP response of the already-issued
`session.get` call. `UpdateFailed` is the `Except.error` case, carrying the
exception's message string. Python truthiness of an optional string
(`if self._bearer_token:`, `if not token:`) is `strTruthy`.
-/

/-- Python truthiness of an `str | None` value: `None` and `""` are falsy. -/
def strTruthy : Option String → Bool
  | none => false
  | some s => s ≠ ""

/-- In-memory coordinator state: the bearer-token cache
(`self._bearer_token`, never persisted) and `self._last_data`. -/
structure CoordState where
  bearerToken : Option String
  lastData : Option (List Day)
deriving DecidableEq, Repr

/-- The HTTP response of the cycle's `session.get`: its status code, its
body text, and the outcome of `resp.json()` (`Except.error e` models the
parse exception with message `e`). -/
structure HttpResponse where
  status : Nat
  text : String
  json : Except String (List Day)

/-- The acquisition path of `_async_get_bearer_token_if_needed` (lines after
the cache check): raise `UpdateFailed` when no username/password is
configured, run `_fetch_bearer_token_sync` in the executor (its outcome is
the `fetchTok` argument; `none` or `""` is a falsy result), raise on a falsy
token, otherwise cache the token in memory and return it. -/
def acquireToken (st : CoordState) (username password fetchTok : Option String) :
    Except String (String × CoordState) :=
  if ¬ (strTruthy username ∧ strTruthy password) then
    Except.error ("No username/password configured to acquire token")
  else
    match fetchTok with
    | some t =>
      if t ≠ "" then Except.ok (t, { st with bearerToken := some t })
      else Except.error ("Failed to retrieve bearer token using provided credentials")
    | none => Except.error ("Failed to retrieve bearer token using provided credentials")

/-- `_async_get_bearer_token_if_needed`: return the cached token when it is
truthy, otherwise run the acquisition path. -/
def getBearerToken (st : CoordState) (username password fetchTok : Option String) :
    Except String (String × CoordState) :=
  match st.bearerToken with
  | some t => if t ≠ "" then Except.ok (t, st) else acquireToken st username password fetchTok
  | none => acquireToken st username password fetchTok

/-- Response handling of `_async_update_data` (lines 128-143): non-200
status raises `UpdateFailed("HTTP {status}: {text[:300]}")`, clearing the
in-memory token first when the status is 401; a 200 with unparseable JSON
raises `UpdateFailed("Invalid JSON response: ...")`; a 200 with parseable
JSON stores and returns the payload. The whole cycle starts by ensuring a
token via `getBearerToken`. -/
def updateData (st : CoordState) (username password fetchTok : Option String)
    (resp : HttpResponse) : CoordState × Except String (List Day) :=
  match getBearerToken st username password fetchTok with
  | Except.error e => (st, Except.error e)
  | Except.ok (_, st1) =>
    if resp.status ≠ 200 then
      if resp.status = 401 then
        ({ st1 with bearerToken := none },
         Except.error ("HTTP " ++ toString resp.status ++ ": " ++ strTake resp.text 300))
      else
        (st1, Except.error ("HTTP " ++ toString resp.status ++ ": " ++ strTake resp.text 300))
    else
      match resp.json with
      | Except.error e => (st1, Except.error ("Invalid JSON response: " ++ e))
      | Except.ok d => ({ st1 with lastData := some d }, Except.ok d)

/-!
## Polling window (`_async_update_data`, lines 104-117)

Datetimes are modelled as integer UTC timestamps in seconds;
`timedelta(hours=h)` is `3600 * h` seconds. The `fmt` helper formats an
instant as an ISO-8601 string in the local timezone with the UTC offset
appended (`%z`), so the formatted parameter still denotes the instant it was
computed from; the `historyFrom`/`historyUntil` fields below carry those
instants. -/

/-- The query parameters built for the measurement-history request. -/
structure RequestParams where
  historyFrom : Int
  historyUntil : Int
  granularity : String
  asServiceProvider : String
  meterSerialNumber : String
deriving DecidableEq, Repr

/-- Window and parameter construction of `_async_update_data`:
`until = now`, `since = until - timedelta(hours=time_window_hours)`, and
`meterSerialNumber = self.meter_id or ""`. -/
def buildParams (now : Int) (timeWindowHours : Int) (granularity : String)
    (meterId : Option String) : RequestParams :=
  { historyFrom := now - 3600 * timeWindowHours
    historyUntil := now
    granularity := granularity
    asServiceProvider := ("false")
    meterSerialNumber := meterId.getD ("") }

/-!
## Coordinator constructor normalization (`FluviusCoordinator.__init__`)

Lines 63-65: `api_base = (api_base or "https://mijn.fluvius.be").rstrip("/")`,
`granularity = str(granularity or DEFAULT_GRANULARITY)`,
`time_window_hours = int(time_window_hours or DEFAULT_TIME_WINDOW_HOURS)`,
with `DEFAULT_GRANULARITY = "1"` and `DEFAULT_TIME_WINDOW_HOURS = 24` from
`const.py`. A falsy `time_window_hours` (`0` or `None`) is modelled by
`Option Int` with `some 0` and `none`. -/

/-- Python's `s.rstrip("/")`: drop every trailing `'/'`. -/
def rstripSlash (s : String) : String := ⟨(s.data.reverse.dropWhile (· = '/')).reverse⟩

/-- The configuration-derived fields the constructor stores. -/
structure CoordConfig where
  apiBase : String
  granularity : String
  timeWindowHours : Int
  bearerToken : Option String
deriving DecidableEq, Repr

/-- `FluviusCoordinator.__init__` normalization of the configuration inputs;
the in-memory token cache starts out empty. -/
def initCoordinator (apiBase granularity : Option String)
    (timeWindowHours : Option Int) : CoordConfig :=
  { apiBase := rstripSlash (match apiBase with
      | none => "https://mijn.fluvius.be"
      | some s => if s = "" then "https://mijn.fluvius.be" else s)
    granularity := (match granularity with
      | none => "1"
      | some s => if s = "" then "1" else s)
    timeWindowHours := (match timeWindowHours with
      | none => 24
      | some t => if t = 0 then 24 else t)
    bearerToken := none }

/-!
## Config flow (`config_flow.py`, `FluviusConfigFlow.async_step_user`)

The submitted form is `UserInput` (`none` models an absent key, whose
`dict.get` default then applies). The blocking token fetch's outcome is the
`fetchTok` argument, and `_validate_token` (a live HTTP probe) is the oracle
`validateOk`, a function of the token under the fixed remaining inputs.
`async_create_entry`/`async_show_form` are the two `FlowResult`
constructors. -/

/-- The fields read from the submitted form. -/
structure UserInput where
  name : Option String
  username : Option String
  password : Option String
  ean : Option String
  meterId : Option String
  apiBase : Option String
  granLabel : Option String
  timeWindowHours : Option Int

/-- The persisted `data` dict of `async_create_entry`: exactly the eight
fields written by the literal at lines 135-144 of `config_flow.py`. -/
structure EntryData where
  name : String
  username : String
  password : String
  ean : String
  meter_id : String
  api_base : String
  granularity : String
  time_window_hours : Int
deriving DecidableEq, Repr

/-- Outcome of one `async_step_user` submission. -/
inductive FlowResult where
  | showForm (error : String)
  | createEntry (title : String) (data : EntryData)
deriving DecidableEq, Repr

/-- `_LABEL_TO_KEY.get(label, DEFAULT_GRANULARITY)`: the inverse of
`GRANULARITY_CHOICES` from `const.py`, defaulting to `"1"`. -/
def labelToKey : Option String → String
  | some s =>
    if s = "15 minutes" then "1"
    else if s = "30 minutes" then "2"
    else if s = "Daily (per day)" then "3"
    else "1"
  | none => "1"

/-- The `data` dict built at lines 135-144 of `config_flow.py`, as a
function of the submitted form alone (the dict literal mentions no token):
each credential-like field is `(user_input.get(k) or "").strip()`, the api
base is `(user_input.get(k) or "https://mijn.fluvius.be").strip()` (Python's
`or` also replaces an empty submitted string by the default), the title
is `user_input.get("name", "Fluvius Electricity")`, the granularity label is
mapped back to its key, and the time window defaults to 24. -/
def entryDataOf (input : UserInput) : EntryData :=
  { name := input.name.getD ("Fluvius Electricity")
    username := pyStrip (input.username.getD (""))
    password := pyStrip (input.password.getD (""))
    ean := pyStrip (input.ean.getD (""))
    meter_id := pyStrip (input.meterId.getD (""))
    api_base := pyStrip (match input.apiBase with
      | none => "https://mijn.fluvius.be"
      | some s => if s = "" then "https://mijn.fluvius.be" else s)
    granularity := labelToKey input.granLabel
    time_window_hours := input.timeWindowHours.getD 24 }

/-- `FluviusConfigFlow.async_step_user` on a submitted form: reject a blank
EAN, then a falsy token-fetch outcome, then a failed validation probe;
otherwise create the entry with the token-free `data` dict. -/
def asyncStepUser (input : UserInput) (fetchTok : Option String)
    (validateOk : String → Bool) : FlowResult :=
  if pyStrip (input.ean.getD ("")) = "" then FlowResult.showForm ("missing_ean")
  else
    match fetchTok with
    | none => FlowResult.showForm ("invalid_credentials_or_2fa")
    | some tok =>
      if tok = "" then FlowResult.showForm ("invalid_credentials_or_2fa")
      else if ¬ validateOk tok then FlowResult.showForm ("invalid_credentials_or_token")
      else FlowResult.createEntry (input.name.getD ("Fluvius Electricity")) (entryDataOf input)

/-!
## Token acquisition scan (`_fetch_bearer_token_sync`, lines 282-293)

After the browser automation, the helper iterates over the captured
outbound requests in order and returns the first `Authorization` header
that belongs to a request whose URL contains `"/api/"` and that starts with
`"Bearer"`; if the loop finishes without a match it returns `None`. A
captured request is its URL together with `request.headers.get("Authorization")`. -/

/-- One captured outbound request. -/
structure CapturedRequest where
  url : String
  authorization : Option String

/-- `"/api/" in request.url`. -/
def urlHasApi (u : String) : Bool := strContains u ("/api/")

/-- The scanning loop of `_fetch_bearer_token_sync`: the outer guard checks
`"/api/" in request.url and request.headers.get("Authorization")` (Python
truthiness), the inner guard re-reads the header and checks
`auth_header and auth_header.startswith("Bearer")`; a request failing
either guard is skipped and the loop continues. -/
def fetchBearerScan : List CapturedRequest → Option String
  | [] => none
  | r :: rest =>
    if urlHasApi r.url && strTruthy r.authorization then
      match r.authorization with
      | some a =>
        if a ≠ "" && strStartsWith a ("Bearer") then some a else fetchBearerScan rest
      | none => fetchBearerScan rest
    else fetchBearerScan rest

/-- Written from the claim: a captured request qualifies when its URL
contains the API namespace path and its `Authorization` header is present
and begins with the scheme token `"Bearer"`. -/
def qualifies (r : CapturedRequest) : Bool :=
  urlHasApi r.url &&
    match r.authorization with
    | some a => strStartsWith a ("Bearer")
    | none => false

/-- Written from the claim: the `Authorization` header value of the first
qualifying captured request, or `none` when no request qualifies. -/
def firstQualifyingAuth (reqs : List CapturedRequest) : Option String :=
  (reqs.find? qualifies).bind (fun r => r.authorization)

/-!
## Auxiliary predicates for the aggregation claims
-/

/-- A reading entry carries a `"dc"` key (non-dict entries are skipped by
every sensor, so they count as unproblematic here). -/
def readingHasDc : Reading → Bool
  | Reading.notDict => true
  | Reading.mk dc _ => dc.isSome

/-- Every reading of the day-bucket carries a `"dc"` key. -/
def dayHasDc (d : Day) : Bool := (d.v.getD []).all readingHasDc

/-- Every reading of the payload carries a `"dc"` key. -/
def allDcPresent (data : Option (List Day)) : Bool := (data.getD []).all dayHasDc

/-- Pairing of two optional sums: `some` exactly when both are. -/
def optPair : Option ℚ → Option ℚ → Option (ℚ × ℚ)
  | some c, some i => some (c, i)
  | _, _ => none

/-!
## Helper lemmas
-/

/-- `round3` fixes every multiple of 1/1000 (used to evaluate concrete
sensor outputs). -/
theorem round3_thousandth (n : ℤ) : round3 ((n : ℚ) / 1000) = (n : ℚ) / 1000 := by
  unfold round3
  rw [div_mul_cancel₀ _ (by norm_num : (1000 : ℚ) ≠ 0), round_intCast]

theorem optPair_none_left (o : Option ℚ) : optPair none o = none := by
  cases o <;> rfl

theorem optPair_none_right (o : Option ℚ) : optPair o none = none := by
  cases o <;> rfl

/-- Rounding to the nearest thousandth moves a rational by at most 1/2000. -/
theorem abs_round3_sub (q : ℚ) : |round3 q - q| ≤ 1 / 2000 := by
  have h := abs_sub_round (q * 1000)
  rw [abs_sub_comm] at h
  rw [round3, show ((round (q * 1000) : ℤ) : ℚ) / 1000 - q =
    ((round (q * 1000) : ℤ) - q * 1000) / 1000 by ring, abs_div,
    show |(1000 : ℚ)| = 1000 by norm_num]
  linarith

/-- On a reading list whose readings all carry `"dc"`, the net sensor's
inner loop is the pairing of the consumption and injection inner loops. -/
theorem netDay_eq_optPair (rs : List Reading) (h : rs.all readingHasDc = true) :
    ∀ c i : ℚ, netDay c i rs = optPair (consDay c rs) (injDay i rs) := by
  induction rs with
  | nil => intro c i; rfl
  | cons r rest ih =>
    intro c i
    rw [List.all_cons, Bool.and_eq_true] at h
    obtain ⟨hr, hrest⟩ := h
    cases r with
    | notDict => simpa [netDay, consDay, injDay] using ih hrest c i
    | mk dc v =>
      obtain ⟨k, rfl⟩ := Option.isSome_iff_exists.mp (by simpa [readingHasDc] using hr)
      cases v with
      | none => simpa [netDay, consDay, injDay] using ih hrest c i
      | some pv =>
        by_cases hk1 : k = 1
        · subst hk1
          cases pv with
          | conv q => simpa [netDay, consDay, injDay] using ih hrest (c + q) i
          | nonconv s => simp [netDay, consDay, injDay, optPair_none_left]
        · by_cases hk2 : k = 2
          · subst hk2
            cases pv with
            | conv q => simpa [netDay, consDay, injDay] using ih hrest c (i + q)
            | nonconv s => simp [netDay, consDay, injDay, optPair_none_right]
          · simpa [netDay, consDay, injDay, hk1, hk2] using ih hrest c i

/-- Day-bucket version of `netDay_eq_optPair`. -/
theorem netDays_eq_optPair (ds : List Day) (h : ds.all dayHasDc = true) :
    ∀ c i : ℚ, netDays c i ds = optPair (consDays c ds) (injDays i ds) := by
  induction ds with
  | nil => intro c i; rfl
  | cons d rest ih =>
    intro c i
    rw [List.all_cons, Bool.and_eq_true] at h
    obtain ⟨hd, hrest⟩ := h
    have hday := netDay_eq_optPair (d.v.getD []) (by simpa [dayHasDc] using hd) c i
    simp only [netDays, consDays, injDays, hday]
    cases hc : consDay c (d.v.getD []) with
    | none => simp [optPair_none_left]
    | some c' =>
      cases hi : injDay i (d.v.getD []) with
      | none => simp [optPair, optPair_none_right]
      | some i' => simpa [optPair] using ih hrest c' i'

/-!
## Claim theorems
-/

/-- C1 (amended): for every stored payload in which each reading dictionary
carries a `"dc"` category code, whenever the three sensors all produce
values `c`, `i`, `n`, the net metric agrees with consumption minus
injection within the tolerance introduced by rounding each result to three
decimals (at most 3/2000). -/
theorem net_eq_consumption_sub_injection (data : Option (List Day))
    (hdc : allDcPresent data = true) (c i n : ℚ)
    (hc : consumptionValue data = some c) (hi : injectionValue data = some i)
    (hn : netValue data = some n) :
    |n - (c - i)| ≤ 3 / 2000 := by
  by_cases he : (data.getD []).isEmpty
  · simp only [consumptionValue, if_pos he] at hc
    exact absurd hc (by simp)
  · simp only [consumptionValue, if_neg he] at hc
    simp only [injectionValue, if_neg he] at hi
    simp only [netValue, if_neg he] at hn
    obtain ⟨c0, hc0, hcr⟩ := Option.map_eq_some'.mp hc
    obtain ⟨i0, hi0, hir⟩ := Option.map_eq_some'.mp hi
    obtain ⟨p, hp, hpr⟩ := Option.map_eq_some'.mp hn
    have hnet := netDays_eq_optPair (data.getD []) (by simpa [allDcPresent] using hdc) 0 0
    rw [hc0, hi0] at hnet
    rw [hnet] at hp
    have hpe : p = (c0, i0) := by simpa [optPair] using hp.symm
    subst hpe
    simp only at hpr
    have h1 := abs_round3_sub (c0 - i0)
    have h2 := abs_round3_sub c0
    have h3 := abs_round3_sub i0
    rw [abs_le] at h1 h2 h3
    rw [← hcr, ← hir, ← hpr, abs_le]
    constructor <;> linarith

/-- C1 counterexample: on the payload with a single reading that has a
value of 1000 but no `"dc"` key, consumption is 1000 while injection and
net are 0, so `net = consumption − injection` fails far beyond any
rounding tolerance. -/
theorem net_eq_consumption_sub_injection_cx :
    consumptionValue (some [⟨some [Reading.mk none (some (PVal.conv 1000))]⟩]) = some 1000 ∧
    injectionValue (some [⟨some [Reading.mk none (some (PVal.conv 1000))]⟩]) = some 0 ∧
    netValue (some [⟨some [Reading.mk none (some (PVal.conv 1000))]⟩]) = some 0 ∧
    ¬ |(0 : ℚ) - (1000 - 0)| ≤ 3 / 2000 := by
  refine ⟨?_, ?_, ?_, by norm_num⟩
  · simp only [consumptionValue, consDays, consDay, Option.getD]
    norm_num
    rw [show ((1000 : ℚ)) = ((1000000 : ℤ)) / 1000 by norm_num, round3_thousandth]
  · simp only [injectionValue, injDays, injDay, Option.getD]
    norm_num
    rw [show ((0 : ℚ)) = ((0 : ℤ)) / 1000 by norm_num, round3_thousandth]
  · simp only [netValue, netDays, netDay, Option.getD]
    norm_num
    rw [show ((0 : ℚ)) = ((0 : ℤ)) / 1000 by norm_num, round3_thousandth]

/-- C1 witness: the sample payload with readings `(dc=1, 1.5)` and
`(dc=2, 0.6)` yields consumption 1.5, injection 0.6, net 0.9, and the
amended relation holds there. -/
theorem net_eq_consumption_sub_injection_witness :
    |(9 / 10 : ℚ) - (3 / 2 - 3 / 5)| ≤ 3 / 2000 :=
  net_eq_consumption_sub_injection
    (some [⟨some [Reading.mk (some 1) (some (PVal.conv (3 / 2))),
                  Reading.mk (some 2) (some (PVal.conv (3 / 5)))]⟩])
    (by decide) (3 / 2) (3 / 5) (9 / 10)
    (by simp only [consumptionValue, consDays, consDay, Option.getD]
        norm_num
        rw [show ((3 / 2 : ℚ)) = ((1500 : ℤ)) / 1000 by norm_num, round3_thousandth])
    (by simp only [injectionValue, injDays, injDay, Option.getD]
        norm_num
        rw [show ((3 / 5 : ℚ)) = ((600 : ℤ)) / 1000 by norm_num, round3_thousandth])
    (by simp only [netValue, netDays, netDay, Option.getD]
        norm_num
        rw [show ((9 / 10 : ℚ)) = ((900 : ℤ)) / 1000 by norm_num, round3_thousandth])

/-- C2: a reading without a `"dc"` key is counted by the consumption sensor
(whose default category code is 1) but ignored by the injection and net
sensors (whose default is 0); in particular, on the payload with one
dc-less reading of value 5, consumption reports 5 while net reports 0. -/
theorem missing_dc_treated_inconsistently :
    (∀ (a q : ℚ) (rs : List Reading),
        consDay a (Reading.mk none (some (PVal.conv q)) :: rs) = consDay (a + q) rs)
  ∧ (∀ (a q : ℚ) (rs : List Reading),
        injDay a (Reading.mk none (some (PVal.conv q)) :: rs) = injDay a rs)
  ∧ (∀ (a b q : ℚ) (rs : List Reading),
        netDay a b (Reading.mk none (some (PVal.conv q)) :: rs) = netDay a b rs)
  ∧ consumptionValue (some [⟨some [Reading.mk none (some (PVal.conv 5))]⟩]) = some 5
  ∧ injectionValue (some [⟨some [Reading.mk none (some (PVal.conv 5))]⟩]) = some 0
  ∧ netValue (some [⟨some [Reading.mk none (some (PVal.conv 5))]⟩]) = some 0 := by
  refine ⟨?_, ?_, ?_, ?_, ?_, ?_⟩
  · intro a q rs; simp [consDay]
  · intro a q rs; simp [injDay]
  · intro a b q rs; simp [netDay]
  · simp only [consumptionValue, consDays, consDay, Option.getD]
    norm_num
    rw [show ((5 : ℚ)) = ((5000 : ℤ)) / 1000 by norm_num, round3_thousandth]
  · simp only [injectionValue, injDays, injDay, Option.getD]
    norm_num
    rw [show ((0 : ℚ)) = ((0 : ℤ)) / 1000 by norm_num, round3_thousandth]
  · simp only [netValue, netDays, netDay, Option.getD]
    norm_num
    rw [show ((0 : ℚ)) = ((0 : ℤ)) / 1000 by norm_num, round3_thousandth]

/-- C4: with no stored payload (`None`) or an empty stored payload, each of
the three sensors reports the unset marker `none` rather than a number. -/
theorem unset_on_empty_payload :
    consumptionValue none = none ∧ consumptionValue (some []) = none ∧
    injectionValue none = none ∧ injectionValue (some []) = none ∧
    netValue none = none ∧ netValue (some []) = none :=
  ⟨rfl, rfl, rfl, rfl, rfl, rfl⟩

/-- C3: in any update cycle that obtained a token and received an HTTP 401
response, `_async_update_data` clears the in-memory bearer token, raises
`UpdateFailed`, and the next cycle's `_async_get_bearer_token_if_needed` on
the resulting state takes the acquisition path instead of returning a
cached token. -/
theorem on_401_clears_token_and_fails (st : CoordState) (u p ft : Option String)
    (resp : HttpResponse) (tok : String) (st1 : CoordState)
    (hget : getBearerToken st u p ft = Except.ok (tok, st1))
    (h401 : resp.status = 401) :
    (updateData st u p ft resp).1.bearerToken = none ∧
    (updateData st u p ft resp).2 =
      Except.error ("HTTP 401: " ++ strTake resp.text 300) ∧
    (∀ u' p' ft', getBearerToken (updateData st u p ft resp).1 u' p' ft' =
      acquireToken (updateData st u p ft resp).1 u' p' ft') := by
  have hupd : updateData st u p ft resp =
      ({ st1 with bearerToken := none },
        Except.error ("HTTP 401: " ++ strTake resp.text 300)) := by
    unfold updateData
    rw [hget]
    simp [h401]
    rfl
  rw [hupd]
  exact ⟨rfl, rfl, fun u' p' ft' => rfl⟩

/-- C3 witness: a cycle with a cached token `"Bearer t"` and a 401 response
ends with the token cleared and an `UpdateFailed` carrying the body. -/
theorem on_401_clears_token_and_fails_witness :
    (updateData ⟨some ("Bearer t"), none⟩ none none none
      ⟨401, ("sess"), Except.error ("")⟩).1.bearerToken = none ∧
    (updateData ⟨some ("Bearer t"), none⟩ none none none
      ⟨401, ("sess"), Except.error ("")⟩).2 =
      Except.error ("HTTP 401: " ++ strTake ("sess") 300) :=
  ⟨(on_401_clears_token_and_fails ⟨some ("Bearer t"), none⟩ none none none
      ⟨401, ("sess"), Except.error ("")⟩ ("Bearer t") ⟨some ("Bearer t"), none⟩ rfl rfl).1,
   (on_401_clears_token_and_fails ⟨some ("Bearer t"), none⟩ none none none
      ⟨401, ("sess"), Except.error ("")⟩ ("Bearer t") ⟨some ("Bearer t"), none⟩ rfl rfl).2.1⟩

/-- C5 (amended): in any update cycle that obtained a token and received a
status that is neither 200 nor 401, `_async_update_data` raises
`UpdateFailed` carrying the status code and the body truncated to 300
characters, and the response handling leaves the token cache in its
post-acquisition state `st1`; in particular, when a token was already
cached at the start of the cycle the cache is unchanged. (When the cycle
itself acquired the token, the newly cached token remains — see the
counterexample to the unrestricted start-to-end frame.) -/
theorem non_auth_error_keeps_token (st : CoordState) (u p ft : Option String)
    (resp : HttpResponse) (tok : String) (st1 : CoordState)
    (hget : getBearerToken st u p ft = Except.ok (tok, st1))
    (h200 : resp.status ≠ 200) (h401 : resp.status ≠ 401) :
    updateData st u p ft resp =
      (st1, Except.error ("HTTP " ++ toString resp.status ++ ": " ++ strTake resp.text 300)) ∧
    (strTruthy st.bearerToken = true → st1 = st) := by
  constructor
  · unfold updateData
    rw [hget]
    simp [h200, h401]
  · intro htr
    cases hb : st.bearerToken with
    | none => rw [hb] at htr; exact absurd htr (by simp [strTruthy])
    | some t =>
      have ht : t ≠ "" := by rw [hb] at htr; simpa [strTruthy] using htr
      have h2 : getBearerToken st u p ft = Except.ok (t, st) := by
        unfold getBearerToken
        rw [hb]
        exact if_pos ht
      rw [h2] at hget
      exact ((Prod.ext_iff.mp (Except.ok.inj hget)).2).symm

/-- C5 counterexample: a cycle that starts with an empty token cache,
acquires `"Bearer x"`, and then receives a 500 ends with `"Bearer x"`
cached — the cache did change over the cycle, from `none` to the acquired
token. -/
theorem non_auth_token_changed_cx :
    (updateData ⟨none, none⟩ (some ("u")) (some ("p")) (some ("Bearer x"))
        ⟨500, ("oops"), Except.error ("")⟩).1.bearerToken = some ("Bearer x") ∧
    (⟨none, none⟩ : CoordState).bearerToken = none :=
  ⟨rfl, rfl⟩

/-- C5 witness: with a cached token `"Bearer t"` and a 503 response, the
cycle fails with the status and truncated body and the cache still holds
`"Bearer t"`. -/
theorem non_auth_error_keeps_token_witness :
    updateData ⟨some ("Bearer t"), none⟩ none none none ⟨503, ("oops"), Except.error ("")⟩ =
      (⟨some ("Bearer t"), none⟩,
        Except.error ("HTTP " ++ toString (503 : Nat) ++ ": " ++ strTake ("oops") 300)) ∧
    (⟨some ("Bearer t"), none⟩ : CoordState) = ⟨some ("Bearer t"), none⟩ :=
  ⟨(non_auth_error_keeps_token ⟨some ("Bearer t"), none⟩ none none none
      ⟨503, ("oops"), Except.error ("")⟩ ("Bearer t") ⟨some ("Bearer t"), none⟩
      rfl (by decide) (by decide)).1,
   (non_auth_error_keeps_token ⟨some ("Bearer t"), none⟩ none none none
      ⟨503, ("oops"), Except.error ("")⟩ ("Bearer t") ⟨some ("Bearer t"), none⟩
      rfl (by decide) (by decide)).2 rfl⟩

/-- C6: every cycle's polling window has `historyFrom` exactly
`timedelta(hours=time_window_hours)` before `historyUntil` (the current
time), and `historyFrom < historyUntil` whenever the configured window is
at least one hour. -/
theorem polling_window (now tw : Int) (gran : String) (mid : Option String) :
    (buildParams now tw gran mid).historyFrom =
      (buildParams now tw gran mid).historyUntil - 3600 * tw ∧
    (1 ≤ tw →
      (buildParams now tw gran mid).historyFrom <
        (buildParams now tw gran mid).historyUntil) := by
  refine ⟨rfl, fun h => ?_⟩
  show now - 3600 * tw < now
  linarith

/-- C6 witness: the default 24-hour window at a concrete instant. -/
theorem polling_window_witness :
    (buildParams 1700000000 24 ("1") none).historyFrom <
      (buildParams 1700000000 24 ("1") none).historyUntil :=
  (polling_window 1700000000 24 ("1") none).2 (by norm_num)

/-- C7: whenever `async_step_user` creates a config entry, the persisted
`data` dict is `entryDataOf input` — a record with exactly the fields name,
username, password, ean, meter_id, api_base, granularity and
time_window_hours, computed from the submitted form alone. The acquired
token is not an argument of `entryDataOf`, so the persisted data is the
same for every acquired token value that leads to entry creation. -/
theorem token_not_persisted (input : UserInput) (ft : Option String)
    (vo : String → Bool) (ttl : String) (d : EntryData)
    (h : asyncStepUser input ft vo = FlowResult.createEntry ttl d) :
    d = entryDataOf input := by
  unfold asyncStepUser at h
  split at h
  · simp at h
  · split at h
    · simp at h
    · split at h
      · simp at h
      · split at h
        · simp at h
        · exact (FlowResult.createEntry.inj h).2.symm

/-- C7 witness: a concrete submission with a nonempty EAN, a fetched token
`"Bearer x"` and a passing validation creates an entry whose data is the
token-free `entryDataOf` of the form. -/
theorem token_not_persisted_witness :
    entryDataOf ⟨some ("HA"), some (" u "), some ("p"), some ("5414"),
      some ("1SAG"), none, some ("30 minutes"), some 12⟩ =
    entryDataOf ⟨some ("HA"), some (" u "), some ("p"), some ("5414"),
      some ("1SAG"), none, some ("30 minutes"), some 12⟩ :=
  token_not_persisted
    ⟨some ("HA"), some (" u "), some ("p"), some ("5414"),
      some ("1SAG"), none, some ("30 minutes"), some 12⟩
    (some ("Bearer x")) (fun _ => true) ("HA")
    (entryDataOf ⟨some ("HA"), some (" u "), some ("p"), some ("5414"),
      some ("1SAG"), none, some ("30 minutes"), some 12⟩)
    (by decide)

/-- C8: the captured-request scan of `_fetch_bearer_token_sync` returns the
`Authorization` header of the first request whose URL contains `"/api/"`
and whose header is present and begins with `"Bearer"`, and `none` when no
request qualifies. -/
theorem scan_returns_first_qualifying (reqs : List CapturedRequest) :
    fetchBearerScan reqs = firstQualifyingAuth reqs := by
  induction reqs with
  | nil => rfl
  | cons r rest ih =>
    cases har : r.authorization with
    | none =>
      have hq : qualifies r = false := by simp [qualifies, har]
      have hg : (urlHasApi r.url && strTruthy r.authorization) = false := by
        simp [har, strTruthy]
      have hfind : List.find? qualifies (r :: rest) = List.find? qualifies rest :=
        List.find?_cons_of_neg _ (by simp [hq])
      calc fetchBearerScan (r :: rest) = fetchBearerScan rest := by
            simp [fetchBearerScan, hg]
        _ = firstQualifyingAuth rest := ih
        _ = firstQualifyingAuth (r :: rest) := by
            simp [firstQualifyingAuth, hfind]
    | some a =>
      by_cases hu : urlHasApi r.url = true
      · by_cases hbear : strStartsWith a ("Bearer") = true
        · have hne : a ≠ "" := by
            intro he
            rw [he] at hbear
            exact absurd hbear (by decide)
          have hq : qualifies r = true := by simp [qualifies, har, hu, hbear]
          have hg : (urlHasApi r.url && strTruthy r.authorization) = true := by
            simp [har, strTruthy, hu, hne]
          have hfind : List.find? qualifies (r :: rest) = some r :=
            List.find?_cons_of_pos _ (by simp [hq])
          have hL : fetchBearerScan (r :: rest) = some a := by
            simp only [fetchBearerScan]
            rw [hg, har]
            simp [hne, hbear]
          have hR : firstQualifyingAuth (r :: rest) = some a := by
            simp [firstQualifyingAuth, hfind, har]
          rw [hL, hR]
        · have hq : qualifies r = false := by simp [qualifies, har, hbear]
          have hfind : List.find? qualifies (r :: rest) = List.find? qualifies rest :=
            List.find?_cons_of_neg _ (by simp [hq])
          have step : fetchBearerScan (r :: rest) = fetchBearerScan rest := by
            by_cases hne : a = ""
            · have hg : (urlHasApi r.url && strTruthy r.authorization) = false := by
                simp [har, strTruthy, hne]
              simp [fetchBearerScan, hg]
            · have hg : (urlHasApi r.url && strTruthy r.authorization) = true := by
                simp [har, strTruthy, hu, hne]
              simp [fetchBearerScan, hg, har, hbear]
          calc fetchBearerScan (r :: rest) = fetchBearerScan rest := step
            _ = firstQualifyingAuth rest := ih
            _ = firstQualifyingAuth (r :: rest) := by
              simp [firstQualifyingAuth, hfind]
      · have hu' : urlHasApi r.url = false := by simpa using hu
        have hq : qualifies r = false := by simp [qualifies, hu']
        have hg : (urlHasApi r.url && strTruthy r.authorization) = false := by
          simp [hu']
        have hfind : List.find? qualifies (r :: rest) = List.find? qualifies rest :=
          List.find?_cons_of_neg _ (by simp [hq])
        calc fetchBearerScan (r :: rest) = fetchBearerScan rest := by
              simp [fetchBearerScan, hg]
          _ = firstQualifyingAuth rest := ih
          _ = firstQualifyingAuth (r :: rest) := by
            simp [firstQualifyingAuth, hfind]

/-- C9: each sensor skips non-dict readings, readings with an absent/None
`"v"` and day-buckets without a `"v"` key without contributing to the sum,
and when the summation raises (a value `float` cannot convert) the sensor
returns the unset marker `none` instead of propagating the exception. -/
theorem sensors_total_and_skip :
    ((∀ (a : ℚ) (rs : List Reading), consDay a (Reading.notDict :: rs) = consDay a rs)
      ∧ (∀ (a : ℚ) (dc : Option Int) (rs : List Reading),
          consDay a (Reading.mk dc none :: rs) = consDay a rs)
      ∧ (∀ (a : ℚ) (ds : List Day), consDays a (⟨none⟩ :: ds) = consDays a ds))
  ∧ ((∀ (a : ℚ) (rs : List Reading), injDay a (Reading.notDict :: rs) = injDay a rs)
      ∧ (∀ (a : ℚ) (dc : Option Int) (rs : List Reading),
          injDay a (Reading.mk dc none :: rs) = injDay a rs)
      ∧ (∀ (a : ℚ) (ds : List Day), injDays a (⟨none⟩ :: ds) = injDays a ds))
  ∧ ((∀ (a b : ℚ) (rs : List Reading), netDay a b (Reading.notDict :: rs) = netDay a b rs)
      ∧ (∀ (a b : ℚ) (dc : Option Int) (rs : List Reading),
          netDay a b (Reading.mk dc none :: rs) = netDay a b rs)
      ∧ (∀ (a b : ℚ) (ds : List Day), netDays a b (⟨none⟩ :: ds) = netDays a b ds))
  ∧ ((∀ ds : List Day, ds ≠ [] → consDays 0 ds = none → consumptionValue (some ds) = none)
      ∧ (∀ ds : List Day, ds ≠ [] → injDays 0 ds = none → injectionValue (some ds) = none)
      ∧ (∀ ds : List Day, ds ≠ [] → netDays 0 0 ds = none → netValue (some ds) = none)) := by
  refine ⟨⟨?_, ?_, ?_⟩, ⟨?_, ?_, ?_⟩, ⟨?_, ?_, ?_⟩, ⟨?_, ?_, ?_⟩⟩
  · intro a rs; rfl
  · intro a dc rs; rfl
  · intro a ds; rfl
  · intro a rs; rfl
  · intro a dc rs; rfl
  · intro a ds; rfl
  · intro a b rs; rfl
  · intro a b dc rs; rfl
  · intro a b ds; rfl
  · intro ds hne hnone
    have he : ds.isEmpty = false := by
      cases ds with
      | nil => exact absurd rfl hne
      | cons d rest => rfl
    simp [consumptionValue, Option.getD, he, hnone]
  · intro ds hne hnone
    have he : ds.isEmpty = false := by
      cases ds with
      | nil => exact absurd rfl hne
      | cons d rest => rfl
    simp [injectionValue, Option.getD, he, hnone]
  · intro ds hne hnone
    have he : ds.isEmpty = false := by
      cases ds with
      | nil => exact absurd rfl hne
      | cons d rest => rfl
    simp [netValue, Option.getD, he, hnone]

/-- C9 witness: payloads containing a reading whose value `float` cannot
convert make each sensor report `none` rather than raise. -/
theorem sensors_total_and_skip_witness :
    consumptionValue (some [⟨some [Reading.mk (some 1) (some (PVal.nonconv ("x")))]⟩]) = none ∧
    injectionValue (some [⟨some [Reading.mk (some 2) (some (PVal.nonconv ("x")))]⟩]) = none ∧
    netValue (some [⟨some [Reading.mk (some 1) (some (PVal.nonconv ("x")))]⟩]) = none :=
  ⟨sensors_total_and_skip.2.2.2.1 _ (by decide) (by decide),
   sensors_total_and_skip.2.2.2.2.1 _ (by decide) (by decide),
   sensors_total_and_skip.2.2.2.2.2 _ (by decide) (by decide)⟩

/-- C10: the coordinator constructor maps falsy configuration inputs to the
defaults of `const.py`: a `None`/0 time window becomes 24, a `None`/empty
granularity becomes `"1"`, and a `None`/empty api_base becomes
`"https://mijn.fluvius.be"` (whose trailing-slash strip is a no-op). -/
theorem init_normalizes_falsy_config :
    (∀ (g : Option String) (t : Option Int),
        (initCoordinator none g t).apiBase = "https://mijn.fluvius.be")
  ∧ (∀ (g : Option String) (t : Option Int),
        (initCoordinator (some ("")) g t).apiBase = "https://mijn.fluvius.be")
  ∧ (∀ (b : Option String) (t : Option Int),
        (initCoordinator b none t).granularity = "1")
  ∧ (∀ (b : Option String) (t : Option Int),
        (initCoordinator b (some ("")) t).granularity = "1")
  ∧ (∀ (b g : Option String), (initCoordinator b g none).timeWindowHours = 24)
  ∧ (∀ (b g : Option String), (initCoordinator b g (some 0)).timeWindowHours = 24) := by
  refine ⟨?_, ?_, ?_, ?_, ?_, ?_⟩ <;> intro x y <;> rfl
